import Mathlib

/-!
Shallow embedding of the core of `modbus_rtu_client_shm`
(src/Modbus_RTU_Client.cpp and src/main.cpp).

Machine integers are modelled as `Int`/`Nat` (all values involved stay far
from any overflow boundary); the C++ `double` timeout values are modelled as
exact rationals `ℚ`; exceptions are modelled as explicit outcome
constructors.
-/

namespace ModbusRtuClientShm

/-- The C `struct timespec`: seconds and **nanoseconds**. -/
structure Timespec where
  tv_sec : Int
  tv_nsec : Int
  deriving DecidableEq, Repr

/-- Total duration of a `timespec` in nanoseconds. -/
def Timespec.totalNs (t : Timespec) : Int :=
  t.tv_sec * 1000000000 + t.tv_nsec

/-- `MAX_REGS` from Modbus_RTU_Client.cpp line 16. -/
def MAX_REGS : Nat := 0x10000

/-- `SEMAPHORE_MAX_TIME` from Modbus_RTU_Client.cpp line 19:
`{0, 100'000}`, i.e. 0 seconds and 100000 nanoseconds. -/
def SEMAPHORE_MAX_TIME : Timespec := ⟨0, 100000⟩

/-- `SEMAPHORE_ERROR_INC` (line 22): added on a failed semaphore wait. -/
def SEMAPHORE_ERROR_INC : Int := 10

/-- `SEMAPHORE_ERROR_DEC` (line 25): subtracted on a successful wait. -/
def SEMAPHORE_ERROR_DEC : Int := 1

/-- `SEMAPHORE_ERROR_MAX` (line 28): fatal threshold of the error counter. -/
def SEMAPHORE_ERROR_MAX : Int := 1000

/-- Linux `errno` value for `ECONNRESET`, tested at line 135. -/
def ECONNRESET : Nat := 104

/-- Outcome of `semaphore->wait(SEMAPHORE_MAX_TIME)`: the external
`cxxsemaphore` primitive either acquires the semaphore within the bound or
times out. -/
inductive AcquireOutcome where
  | acquired
  | timedOut
  deriving DecidableEq, Repr

/-- How one call to `Client::handle_request` ends:
`ret b` models a normal return of `b` (`true` = connection closed),
`fatalSemaphore` models `throw std::runtime_error("Repeatedly failed to
acquire the semaphore")`, and `fatalTransport e` models
`throw std::runtime_error("modbus_receive failed ...")` with `errno = e`. -/
inductive HandleOutcome where
  | ret (connection_closed : Bool)
  | fatalSemaphore
  | fatalTransport (e : Nat)
  deriving DecidableEq, Repr

/-- Observable side effects of one `Client::handle_request` call:
`replied` — `modbus_reply` was invoked;
`acquired` — the semaphore wait succeeded (so `is_acquired()` holds at the
release point);
`released` — `semaphore->post()` was called;
`warned` — the 100ms-warning line was printed to `stderr`. -/
structure Effects where
  replied : Bool
  acquired : Bool
  released : Bool
  warned : Bool
  deriving DecidableEq, Repr

/-- `Client::handle_request` (Modbus_RTU_Client.cpp lines 111-142), as a
function of the semaphore configuration flag, the current
`semaphore_error_counter`, the result `rc` of `modbus_receive` (with its
`errno` when `rc = -1`) and the outcome of the bounded semaphore wait.
Returns the outcome, the new counter, and the observable effects. -/
def handle_request (semEnabled : Bool) (counter : Int) (rc : Int)
    (recvErrno : Nat) (acq : AcquireOutcome) :
    HandleOutcome × Int × Effects :=
  if 0 < rc then
    if semEnabled then
      match acq with
      | .timedOut =>
          let c := counter + SEMAPHORE_ERROR_INC
          if SEMAPHORE_ERROR_MAX ≤ c then
            (.fatalSemaphore, c, ⟨false, false, false, true⟩)
          else
            (.ret false, c, ⟨true, false, false, true⟩)
      | .acquired =>
          let c0 := counter - SEMAPHORE_ERROR_DEC
          let c := if c0 < 0 then 0 else c0
          (.ret false, c, ⟨true, true, true, false⟩)
    else
      (.ret false, counter, ⟨true, false, false, false⟩)
  else if rc = -1 then
    if recvErrno = ECONNRESET then
      (.ret true, counter, ⟨false, false, false, false⟩)
    else
      (.fatalTransport recvErrno, counter, ⟨false, false, false, false⟩)
  else
    (.ret false, counter, ⟨false, false, false, false⟩)

/-- The external inputs of one main-loop iteration. -/
structure LoopInput where
  rc : Int
  recvErrno : Nat
  acq : AcquireOutcome
  deriving DecidableEq, Repr

/-- A loop iteration consisting of a received frame and a timed-out
semaphore wait. -/
def timeoutInput : LoopInput := ⟨1, 0, .timedOut⟩

/-- A loop iteration consisting of a received frame and a successful
semaphore wait. -/
def successInput : LoopInput := ⟨1, 0, .acquired⟩

/-- Why the main loop (main.cpp lines 366-376) stopped:
`closed` — `handle_request` returned `true`;
`fatalSem` / `fatalTransport` — a `runtime_error` was caught and the loop
`break`s; `exhausted` — the supplied input sequence ended with the loop
still running. -/
inductive LoopReason where
  | closed
  | fatalSem
  | fatalTransport (e : Nat)
  | exhausted
  deriving DecidableEq, Repr

/-- Aggregate result of running the main loop on a list of inputs. -/
structure LoopRun where
  reason : LoopReason
  counter : Int
  consumed : Nat
  replies : Nat
  deriving DecidableEq, Repr

/-- The main loop of main.cpp (lines 366-376), folded over a list of
per-iteration inputs: repeatedly calls `handle_request` until it returns
`true` (connection closed) or throws (caught, loop breaks).
`consumed` counts iterations executed, `replies` counts iterations in which
`modbus_reply` was invoked. -/
def loopRun (semEnabled : Bool) : Int → List LoopInput → LoopRun
  | c, [] => ⟨.exhausted, c, 0, 0⟩
  | c, i :: rest =>
    match handle_request semEnabled c i.rc i.recvErrno i.acq with
    | (.ret true, c', eff) => ⟨.closed, c', 1, if eff.replied then 1 else 0⟩
    | (.ret false, c', eff) =>
        let L := loopRun semEnabled c' rest
        ⟨L.reason, L.counter, L.consumed + 1,
          L.replies + (if eff.replied then 1 else 0)⟩
    | (.fatalSemaphore, c', eff) =>
        ⟨.fatalSem, c', 1, if eff.replied then 1 else 0⟩
    | (.fatalTransport e, c', eff) =>
        ⟨.fatalTransport e, c', 1, if eff.replied then 1 else 0⟩

/-- The successive values held by `semaphore_error_counter` after each
executed loop iteration, stopping (as the loop does) after a
connection-close return or a thrown `runtime_error`. -/
def counterTrace (semEnabled : Bool) : Int → List LoopInput → List Int
  | _, [] => []
  | c, i :: rest =>
    match handle_request semEnabled c i.rc i.recvErrno i.acq with
    | (.ret false, c', _) => c' :: counterTrace semEnabled c' rest
    | (_, c', _) => [c']

/-! ## Startup model (main.cpp) -/

/-- Exit codes from `<sysexits.h>` as used by main.cpp. -/
def EX_OK : Nat := 0

/-- `EX_USAGE` (64): returned by `exit_usage` and the permission check. -/
def EX_USAGE : Nat := 64

/-- `EX_SOFTWARE` (70): client construction, timeout setting or semaphore
creation failed. -/
def EX_SOFTWARE : Nat := 70

/-- `EX_OSERR` (71): shared-memory mapping construction failed. -/
def EX_OSERR : Nat := 71

/-- The parsed command-line configuration consumed by main.cpp after
argument parsing. String parsing of the permission bits is abstracted to
its boolean outcome `permissions_ok` (parse succeeded and only bits within
`0x1FF` are set). -/
structure Config where
  do_registers : Nat
  di_registers : Nat
  ao_registers : Nat
  ai_registers : Nat
  parity : Char
  data_bits : Int
  stop_bits : Int
  baud : Int
  rs232 : Bool
  rs485 : Bool
  permissions_ok : Bool
  has_response_timeout : Bool
  has_byte_timeout : Bool
  has_semaphore : Bool
  deriving DecidableEq, Repr

/-- Success/failure of the external constructors invoked during startup
(`Shm_Mapping`, `Client` plus `set_debug`, the two timeout setters, and the
`cxxsemaphore` constructor). -/
structure Env where
  shm_ok : Bool
  client_ok : Bool
  response_timeout_ok : Bool
  byte_timeout_ok : Bool
  semaphore_ok : Bool
  deriving DecidableEq, Repr

/-- Resource-acquisition attempts made by main.cpp, in order. -/
inductive MainEvent where
  | shmAttempt
  | clientAttempt
  | loopStart
  deriving DecidableEq, Repr

/-- Result of one whole process run: the exit code, the attempts made, and
(when the main loop was reached) how the loop ended. -/
structure MainResult where
  exitCode : Nat
  events : List MainEvent
  loopOutcome : Option LoopReason
  deriving DecidableEq, Repr

/-- The argument checks of main.cpp lines 239-305, in source order; `some
code` means the process returns `code` before any resource is created. -/
def checkArgs (cfg : Config) : Option Nat :=
  if 0x10000 < cfg.do_registers then some EX_USAGE
  else if 0x10000 < cfg.di_registers then some EX_USAGE
  else if 0x10000 < cfg.ao_registers then some EX_USAGE
  else if 0x10000 < cfg.ai_registers then some EX_USAGE
  else if ¬(cfg.parity.toUpper = 'N' ∨ cfg.parity.toUpper = 'E' ∨
            cfg.parity.toUpper = 'O') then some EX_USAGE
  else if cfg.data_bits < 5 ∨ 8 < cfg.data_bits then some EX_USAGE
  else if cfg.stop_bits < 1 ∨ 2 < cfg.stop_bits then some EX_USAGE
  else if cfg.baud < 1 then some EX_USAGE
  else if cfg.rs232 ∧ cfg.rs485 then some EX_USAGE
  else if ¬cfg.permissions_ok then some EX_USAGE
  else none

/-- main.cpp from the argument checks (line 239) to process exit: argument
checks, shared-memory creation (`EX_OSERR` on failure), client creation and
timeout/semaphore setup (`EX_SOFTWARE` on failure), then the main loop.
After the loop — whether it ended by connection close, by a caught
`runtime_error`, or by running out of inputs — control falls off the end of
`main`, so the process exits with code 0. -/
def mainRun (cfg : Config) (env : Env) (inputs : List LoopInput) :
    MainResult :=
  match checkArgs cfg with
  | some code => ⟨code, [], none⟩
  | none =>
    if ¬env.shm_ok then ⟨EX_OSERR, [.shmAttempt], none⟩
    else if ¬env.client_ok then
      ⟨EX_SOFTWARE, [.shmAttempt, .clientAttempt], none⟩
    else if cfg.has_response_timeout ∧ ¬env.response_timeout_ok then
      ⟨EX_SOFTWARE, [.shmAttempt, .clientAttempt], none⟩
    else if cfg.has_byte_timeout ∧ ¬env.byte_timeout_ok then
      ⟨EX_SOFTWARE, [.shmAttempt, .clientAttempt], none⟩
    else if cfg.has_semaphore ∧ ¬env.semaphore_ok then
      ⟨EX_SOFTWARE, [.shmAttempt, .clientAttempt], none⟩
    else
      let L := loopRun cfg.has_semaphore 0 inputs
      ⟨EX_OK, [.shmAttempt, .clientAttempt, .loopStart], some L.reason⟩

/-! ## Timeout adapter (Modbus_RTU_Client.cpp lines 144-204)

The C++ `double` values are modelled as exact rationals; the
`static_cast<uint32_t>` of a nonnegative in-range value truncates toward
zero, i.e. is the floor. -/

/-- `double_to_timeout_t` (lines 149-158): the integer part becomes the
seconds field; the fractional part times 1,000,000, truncated, becomes the
microseconds field. -/
def double_to_timeout_t (timeout : ℚ) : Nat × Nat :=
  let sec : Nat := ⌊timeout⌋.toNat
  let fractional : ℚ := timeout - (sec : ℚ)
  let usec : Nat := ⌊fractional * (1000 * 1000)⌋.toNat
  (sec, usec)

/-- The reverse conversion used by `Client::get_byte_timeout` and
`Client::get_response_timeout` (lines 190, 203):
`sec + usec / (1000.0 * 1000.0)`. -/
def timeout_t_to_double (sec usec : Nat) : ℚ :=
  (sec : ℚ) + (usec : ℚ) / (1000 * 1000)

/-! ## Theorems -/

/-- C1: the bounded wait passed to the semaphore in `handle_request` is
`SEMAPHORE_MAX_TIME = {0, 100'000}`, i.e. 100,000 nanoseconds = 100
microseconds — NOT the 100 milliseconds (100,000,000 ns) stated by the
specification, by the source comment on the constant, and by the runtime
warning message. -/
theorem c1_wait_bound_is_100_microseconds_not_100ms :
    SEMAPHORE_MAX_TIME.totalNs = 100000 ∧
    SEMAPHORE_MAX_TIME.totalNs ≠ 100 * 1000000 := by
  decide

/-- C10: when `modbus_receive` yields `rc = 0`, `handle_request` returns
`false` (continue) with the counter unchanged and no effects at all: the
guard is not acquired, the counter is not modified, and `modbus_reply` is
not invoked. -/
theorem c10_empty_receive_returns_continue_without_effects
    (semEnabled : Bool) (counter : Int) (recvErrno : Nat)
    (acq : AcquireOutcome) :
    handle_request semEnabled counter 0 recvErrno acq =
      (HandleOutcome.ret false, counter, ⟨false, false, false, false⟩) := by
  simp [handle_request]

/-- C9: in every `handle_request` call, `semaphore->post()` is called if
and only if the semaphore is actually held (`is_acquired()`), and whenever
it was acquired the protocol engine had been invoked beforehand — so the
release follows the engine call regardless of the engine's result and no
release-while-not-held ever occurs. -/
theorem c9_release_iff_acquired (semEnabled : Bool) (counter rc : Int)
    (recvErrno : Nat) (acq : AcquireOutcome) :
    ((handle_request semEnabled counter rc recvErrno acq).2.2.released =
      (handle_request semEnabled counter rc recvErrno acq).2.2.acquired) ∧
    ((handle_request semEnabled counter rc recvErrno acq).2.2.acquired =
        true →
      (handle_request semEnabled counter rc recvErrno acq).2.2.replied =
        true) := by
  unfold handle_request
  cases acq <;> split_ifs <;> simp_all
  split_ifs <;> simp

/-- C9 witness: at a concrete acquired run the release happened and the
engine had been invoked. -/
theorem c9_release_iff_acquired_witness :
    ((handle_request true 5 1 0 AcquireOutcome.acquired).2.2.released =
      (handle_request true 5 1 0 AcquireOutcome.acquired).2.2.acquired) ∧
    (handle_request true 5 1 0 AcquireOutcome.acquired).2.2.replied =
      true :=
  ⟨(c9_release_iff_acquired true 5 1 0 AcquireOutcome.acquired).1,
   (c9_release_iff_acquired true 5 1 0 AcquireOutcome.acquired).2
     (by decide)⟩

/-- C6: a timed-out guard acquisition whose counter increment stays below
the fatal threshold still serves the request: `handle_request` returns
`false` with the counter incremented by 10, the warning logged, the reply
produced (`replied = true`) and the guard neither held nor released. -/
theorem c6_timeout_request_still_served (counter rc : Int) (recvErrno : Nat)
    (hrc : 0 < rc)
    (hc : counter + SEMAPHORE_ERROR_INC < SEMAPHORE_ERROR_MAX) :
    handle_request true counter rc recvErrno AcquireOutcome.timedOut =
      (HandleOutcome.ret false, counter + SEMAPHORE_ERROR_INC,
        ⟨true, false, false, true⟩) := by
  simp [handle_request, hrc, not_le.mpr hc]

/-- C6 witness: a concrete timed-out acquisition at counter 0 still
replies. -/
theorem c6_timeout_request_still_served_witness :
    handle_request true 0 1 7 AcquireOutcome.timedOut =
      (HandleOutcome.ret false, 0 + SEMAPHORE_ERROR_INC,
        ⟨true, false, false, true⟩) :=
  c6_timeout_request_still_served 0 1 7 (by decide) (by decide)

/-- An input sequence of 99 timeouts, one success and two more timeouts:
the counter runs 0 → 990 → 989 → 999 → 1009. -/
def c2Inputs : List LoopInput :=
  List.replicate 99 timeoutInput ++
    successInput :: timeoutInput :: [timeoutInput]

/-- C2 counterexample: starting from 0, the sequence of 99 timeouts, one
success and two further timeouts leaves the counter holding 1009 — outside
the claimed interval `[0, 1000]`. The counter is not capped at
`SEMAPHORE_ERROR_MAX`; the fatal check merely fires once the increment has
already pushed it past the threshold. -/
theorem c2_counter_exceeds_1000 :
    (1009 : Int) ∈ counterTrace true 0 c2Inputs ∧
    ¬((1009 : Int) ≤ SEMAPHORE_ERROR_MAX) := by
  constructor <;> decide

/-- Invariant of the counter trace: from any start value in `[0, 999]`,
every recorded counter value is in `[0, 1009]`, and a value `≥ 1000` is
recorded only in a run that ends with the semaphore-fatal escalation. -/
theorem counterTrace_invariant (inputs : List LoopInput) :
    ∀ c : Int, 0 ≤ c → c < 1000 →
      ∀ x ∈ counterTrace true c inputs,
        (0 ≤ x ∧ x < 1010) ∧
        (1000 ≤ x → (loopRun true c inputs).reason = LoopReason.fatalSem) := by
  induction inputs with
  | nil =>
      intro c h0 h1 x hx
      simp [counterTrace] at hx
  | cons i rest ih =>
      intro c h0 h1 x hx
      rcases i with ⟨rc, e, acq⟩
      simp only [counterTrace, loopRun, handle_request, SEMAPHORE_ERROR_INC,
        SEMAPHORE_ERROR_DEC, SEMAPHORE_ERROR_MAX] at hx ⊢
      by_cases hrc : 0 < rc
      · simp only [if_pos hrc] at hx ⊢
        cases acq with
        | timedOut =>
            by_cases hth : (1000 : Int) ≤ c + 10
            · simp only [if_pos hth, if_true, List.mem_singleton] at hx ⊢
              subst hx
              exact ⟨⟨by omega, by omega⟩, fun _ => by simp⟩
            · simp only [if_neg hth, if_true, List.mem_cons] at hx ⊢
              rcases hx with hx | hx
              · subst hx
                exact ⟨⟨by omega, by omega⟩, fun hge => by omega⟩
              · have := ih (c + 10) (by omega) (by omega) x hx
                exact ⟨this.1, fun hge => this.2 hge⟩
        | acquired =>
            by_cases hneg : c - 1 < 0
            · simp only [if_pos hneg, if_true, List.mem_cons] at hx ⊢
              rcases hx with hx | hx
              · subst hx
                exact ⟨⟨le_refl 0, by omega⟩, fun hge => by omega⟩
              · have := ih 0 (le_refl 0) (by omega) x hx
                exact ⟨this.1, fun hge => this.2 hge⟩
            · simp only [if_neg hneg, if_true, List.mem_cons] at hx ⊢
              rcases hx with hx | hx
              · subst hx
                exact ⟨⟨by omega, by omega⟩, fun hge => by omega⟩
              · have := ih (c - 1) (by omega) (by omega) x hx
                exact ⟨this.1, fun hge => this.2 hge⟩
      · simp only [if_neg hrc] at hx ⊢
        by_cases hm1 : rc = -1
        · simp only [if_pos hm1] at hx ⊢
          by_cases he : e = ECONNRESET
          · simp only [if_pos he, List.mem_singleton] at hx ⊢
            subst hx
            exact ⟨⟨h0, by omega⟩, fun hge => by omega⟩
          · simp only [if_neg he, List.mem_singleton] at hx ⊢
            subst hx
            exact ⟨⟨h0, by omega⟩, fun hge => by omega⟩
        · simp only [if_neg hm1, List.mem_cons] at hx ⊢
          rcases hx with hx | hx
          · subst hx
            exact ⟨⟨h0, by omega⟩, fun hge => by omega⟩
          · have := ih c h0 h1 x hx
            exact ⟨this.1, fun hge => this.2 hge⟩

/-- C2 (amended): starting from counter 0, the contention counter never
leaves `[0, 1009]` — it saturates at 0 on the low end, and it exceeds the
claimed bound of 1000 (by at most `SEMAPHORE_ERROR_INC - 1 = 9`) only at
the very instant of the fatal escalation that terminates the session. -/
theorem c2_counter_range (inputs : List LoopInput) (x : Int)
    (hx : x ∈ counterTrace true 0 inputs) :
    (0 ≤ x ∧ x < SEMAPHORE_ERROR_MAX + SEMAPHORE_ERROR_INC) ∧
    (SEMAPHORE_ERROR_MAX ≤ x →
      (loopRun true 0 inputs).reason = LoopReason.fatalSem) := by
  have h := counterTrace_invariant inputs 0 (le_refl 0) (by norm_num) x hx
  exact h

/-- C2 witness: the amended bound applied at the concrete 1009-reaching
run, with the fatal escalation confirmed. -/
theorem c2_counter_range_witness :
    ((0 : Int) ≤ 1009 ∧
      (1009 : Int) < SEMAPHORE_ERROR_MAX + SEMAPHORE_ERROR_INC) ∧
    (loopRun true 0 c2Inputs).reason = LoopReason.fatalSem :=
  ⟨(c2_counter_range c2Inputs 1009 (by decide)).1,
   (c2_counter_range c2Inputs 1009 (by decide)).2 (by decide)⟩

/-- Running the loop through `k` consecutive timed-out acquisitions that
all stay below the fatal threshold adds `10 k` to the counter, consumes `k`
iterations, replies `k` times, and then continues with the rest of the
inputs. -/
theorem loopRun_timeout_prefix (k : Nat) :
    ∀ (c : Int) (rest : List LoopInput), c + 10 * (k : Int) < 1000 →
      loopRun true c (List.replicate k timeoutInput ++ rest) =
        ⟨(loopRun true (c + 10 * (k : Int)) rest).reason,
         (loopRun true (c + 10 * (k : Int)) rest).counter,
         (loopRun true (c + 10 * (k : Int)) rest).consumed + k,
         (loopRun true (c + 10 * (k : Int)) rest).replies + k⟩ := by
  induction k with
  | zero =>
      intro c rest h
      simp
  | succ n ih =>
      intro c rest h
      have hth : ¬((1000 : Int) ≤ c + 10) := by push_cast at h; omega
      rw [List.replicate_succ, List.cons_append]
      simp only [loopRun, handle_request, timeoutInput, SEMAPHORE_ERROR_INC,
        SEMAPHORE_ERROR_MAX, if_pos (by norm_num : (0 : Int) < 1),
        if_neg hth, if_true]
      simp only [timeoutInput] at ih
      rw [ih (c + 10) rest (by push_cast at h ⊢; omega)]
      have harith : c + 10 + 10 * (n : Int) = c + 10 * ((n + 1 : Nat) : Int) := by
        push_cast
        ring
      rw [harith]
      simp only [LoopRun.mk.injEq]
      refine ⟨trivial, trivial, ?_, ?_⟩ <;> simp <;> omega

/-- C3: with the guard configured and the counter at 0, under `n ≥ 100`
consecutive timed-out acquisitions the loop terminates fatally exactly at
the 100th timeout (the counter first reaches 1000 there), having replied
to only the first 99 requests — on the fatal iteration `modbus_reply` is
not invoked (the final conjunct exhibits that iteration's effects:
`replied = false`) — while any run of fewer than 100 consecutive timeouts
leaves the loop running. -/
theorem c3_fatal_on_100th_consecutive_timeout (n : Nat) (hn : 100 ≤ n) :
    loopRun true 0 (List.replicate n timeoutInput) =
      ⟨LoopReason.fatalSem, 1000, 100, 99⟩ ∧
    (∀ m : Nat, m < 100 →
      loopRun true 0 (List.replicate m timeoutInput) =
        ⟨LoopReason.exhausted, 10 * (m : Int), m, m⟩) ∧
    handle_request true 990 1 0 AcquireOutcome.timedOut =
      (HandleOutcome.fatalSemaphore, 1000, ⟨false, false, false, true⟩) := by
  refine ⟨?_, ?_, by decide⟩
  · have hsplit : n = 99 + (n - 99) := by omega
    rw [hsplit, List.replicate_add,
      loopRun_timeout_prefix 99 0 _ (by norm_num)]
    have h99 : (0 : Int) + 10 * ((99 : Nat) : Int) = 990 := by norm_num
    rw [h99]
    have hsplit2 : n - 99 = (n - 100) + 1 := by omega
    rw [hsplit2, List.replicate_succ]
    have hstep :
        loopRun true 990
          (timeoutInput :: List.replicate (n - 100) timeoutInput) =
          ⟨LoopReason.fatalSem, 1000, 1, 0⟩ := by
      norm_num [loopRun, handle_request, timeoutInput, SEMAPHORE_ERROR_INC,
        SEMAPHORE_ERROR_MAX]
    rw [hstep]
  · intro m hm
    have hpre := loopRun_timeout_prefix m 0 [] (by omega)
    rw [List.append_nil] at hpre
    rw [hpre]
    norm_num [loopRun]

/-- C3 witness: 150 consecutive timeouts terminate the loop fatally at the
100th with 99 replies, while 99 consecutive timeouts leave it running. -/
theorem c3_fatal_on_100th_consecutive_timeout_witness :
    loopRun true 0 (List.replicate 150 timeoutInput) =
      ⟨LoopReason.fatalSem, 1000, 100, 99⟩ ∧
    loopRun true 0 (List.replicate 99 timeoutInput) =
      ⟨LoopReason.exhausted, 10 * ((99 : Nat) : Int), 99, 99⟩ :=
  ⟨(c3_fatal_on_100th_consecutive_timeout 150 (by norm_num)).1,
   (c3_fatal_on_100th_consecutive_timeout 150 (by norm_num)).2.1 99
     (by norm_num)⟩

/-- A configuration that passes every argument check. -/
def validConfig : Config :=
  ⟨10, 10, 10, 10, 'N', 8, 1, 9600, false, false, true, false, false, false⟩

/-- An environment in which every external constructor succeeds. -/
def allOkEnv : Env := ⟨true, true, true, true, true⟩

/-- C4 counterexample: a run whose loop ends with a fatal transport error
(`modbus_receive` fails with `errno = 5`) exits with code 0, not with a
distinct non-zero code: after the caught `runtime_error` the code breaks
out of the loop and control falls off the end of `main`. -/
theorem c4_fatal_loop_exit_code_is_zero :
    (mainRun validConfig allOkEnv [⟨-1, 5, AcquireOutcome.acquired⟩]).loopOutcome =
      some (LoopReason.fatalTransport 5) ∧
    (mainRun validConfig allOkEnv [⟨-1, 5, AcquireOutcome.acquired⟩]).exitCode =
      0 := by
  constructor <;> decide

set_option maxHeartbeats 1000000 in
/-- Every failing argument check makes `checkArgs` return `EX_USAGE`. -/
theorem checkArgs_some_eq_usage (cfg : Config) (code : Nat)
    (h : checkArgs cfg = some code) : code = EX_USAGE := by
  unfold checkArgs at h
  split_ifs at h
  all_goals exact (Option.some.inj h).symm

/-- When an argument check fails, `mainRun` exits immediately with that
code, no events and no loop. -/
theorem mainRun_of_checkArgs_some (cfg : Config) (env : Env)
    (inputs : List LoopInput) (code : Nat) (h : checkArgs cfg = some code) :
    mainRun cfg env inputs = ⟨code, [], none⟩ := by
  unfold mainRun
  rw [h]

/-- C4 (amended): configuration errors discovered before the loop starts
exit with one of the distinct non-zero codes 64 (`EX_USAGE`), 71
(`EX_OSERR`, shared-memory allocation) or 70 (`EX_SOFTWARE`, client,
timeout or semaphore setup); but every run that reaches the main loop —
including those terminated by a fatal transport failure or by the guard's
fatal escalation — exits with code 0. -/
theorem c4_exit_codes (cfg : Config) (env : Env) (inputs : List LoopInput) :
    ((mainRun cfg env inputs).loopOutcome.isSome = true →
      (mainRun cfg env inputs).exitCode = EX_OK) ∧
    ((mainRun cfg env inputs).loopOutcome = none →
      ((mainRun cfg env inputs).exitCode = EX_USAGE ∨
       (mainRun cfg env inputs).exitCode = EX_OSERR ∨
       (mainRun cfg env inputs).exitCode = EX_SOFTWARE) ∧
      (mainRun cfg env inputs).exitCode ≠ EX_OK) := by
  cases h : checkArgs cfg with
  | some code =>
      rw [mainRun_of_checkArgs_some cfg env inputs code h,
        checkArgs_some_eq_usage cfg code h]
      refine ⟨fun hs => ?_, fun _ => ⟨Or.inl rfl, by decide⟩⟩
      simp at hs
  | none =>
      unfold mainRun
      rw [h]
      split_ifs <;>
        refine ⟨fun hs => ?_, fun hn => ?_⟩ <;>
        simp_all [EX_OK, EX_USAGE, EX_OSERR, EX_SOFTWARE]

/-- C4 witness: a clean run that reaches the loop exits with `EX_OK`, and
an oversized-bank run that never reaches the loop exits non-zero. -/
theorem c4_exit_codes_witness :
    (mainRun validConfig allOkEnv []).exitCode = EX_OK ∧
    (mainRun { validConfig with do_registers := 70000 } allOkEnv []).exitCode ≠
      EX_OK := by
  constructor
  · exact (c4_exit_codes validConfig allOkEnv []).1 (by decide)
  · have hn : (mainRun { validConfig with do_registers := 70000 }
        allOkEnv []).loopOutcome = none := by decide
    exact ((c4_exit_codes { validConfig with do_registers := 70000 }
      allOkEnv []).2 hn).2

/-- C7: when the peer closes the connection (`modbus_receive` returns `-1`
with `errno = ECONNRESET`), `handle_request` returns `true` without
touching the guard (no acquisition, no release, no counter change and no
reply), the loop stops with reason `closed` and no fatal condition, and any
startup that reaches the loop then exits with code 0. -/
theorem c7_peer_closed_clean_exit (semEnabled : Bool) (c : Int)
    (acq : AcquireOutcome) (rest : List LoopInput) (cfg : Config)
    (env : Env) :
    handle_request semEnabled c (-1) ECONNRESET acq =
      (HandleOutcome.ret true, c, ⟨false, false, false, false⟩) ∧
    loopRun semEnabled c (⟨-1, ECONNRESET, acq⟩ :: rest) =
      ⟨LoopReason.closed, c, 1, 0⟩ ∧
    ((mainRun cfg env (⟨-1, ECONNRESET, acq⟩ :: rest)).loopOutcome.isSome =
        true →
      (mainRun cfg env (⟨-1, ECONNRESET, acq⟩ :: rest)).loopOutcome =
        some LoopReason.closed ∧
      (mainRun cfg env (⟨-1, ECONNRESET, acq⟩ :: rest)).exitCode = 0) := by
  have hhr : ∀ (s : Bool) (c' : Int),
      handle_request s c' (-1) ECONNRESET acq =
        (HandleOutcome.ret true, c', ⟨false, false, false, false⟩) := by
    intro s c'
    simp [handle_request]
  have hloop : ∀ (s : Bool) (c' : Int),
      loopRun s c' (⟨-1, ECONNRESET, acq⟩ :: rest) =
        ⟨LoopReason.closed, c', 1, 0⟩ := by
    intro s c'
    simp only [loopRun, hhr]
    simp
  refine ⟨hhr semEnabled c, hloop semEnabled c, ?_⟩
  intro hsome
  cases h : checkArgs cfg with
  | some code =>
      rw [mainRun_of_checkArgs_some cfg env _ code h] at hsome
      simp at hsome
  | none =>
      unfold mainRun at hsome ⊢
      rw [h] at hsome ⊢
      split_ifs at hsome ⊢
      all_goals first
        | exact ⟨by rw [hloop cfg.has_semaphore 0], rfl⟩
        | simp at hsome

/-- C7 witness: the peer-closed behaviour at a concrete configured run. -/
theorem c7_peer_closed_clean_exit_witness :
    handle_request true 3 (-1) ECONNRESET AcquireOutcome.acquired =
      (HandleOutcome.ret true, 3, ⟨false, false, false, false⟩) ∧
    loopRun true 3 (⟨-1, ECONNRESET, AcquireOutcome.acquired⟩ :: []) =
      ⟨LoopReason.closed, 3, 1, 0⟩ ∧
    (mainRun validConfig allOkEnv
        (⟨-1, ECONNRESET, AcquireOutcome.acquired⟩ :: [])).exitCode = 0 :=
  ⟨(c7_peer_closed_clean_exit true 3 AcquireOutcome.acquired []
      validConfig allOkEnv).1,
   (c7_peer_closed_clean_exit true 3 AcquireOutcome.acquired []
      validConfig allOkEnv).2.1,
   ((c7_peer_closed_clean_exit true 3 AcquireOutcome.acquired []
      validConfig allOkEnv).2.2 (by decide)).2⟩

/-- C8: any configuration with a bank size above 65536 makes startup exit
with the usage error code 64 before the shared-memory mapping constructor
is ever invoked: no allocation attempt appears among the run's events. -/
theorem c8_oversized_bank_rejected_before_allocation (cfg : Config)
    (env : Env) (inputs : List LoopInput)
    (h : 65536 < cfg.do_registers ∨ 65536 < cfg.di_registers ∨
         65536 < cfg.ao_registers ∨ 65536 < cfg.ai_registers) :
    (mainRun cfg env inputs).exitCode = EX_USAGE ∧
    (mainRun cfg env inputs).exitCode ≠ 0 ∧
    MainEvent.shmAttempt ∉ (mainRun cfg env inputs).events := by
  have hc : checkArgs cfg = some EX_USAGE := by
    unfold checkArgs
    rcases h with h | h | h | h <;> split_ifs <;> rfl
  rw [mainRun_of_checkArgs_some cfg env inputs EX_USAGE hc]
  refine ⟨rfl, by decide, by simp⟩

/-- C8 witness: a configuration asking for 65537 discrete outputs exits
with code 64 and never attempts the shared-memory allocation. -/
theorem c8_oversized_bank_rejected_witness :
    (mainRun { validConfig with do_registers := 65537 } allOkEnv []).exitCode =
      EX_USAGE ∧
    (mainRun { validConfig with do_registers := 65537 } allOkEnv []).exitCode ≠
      0 ∧
    MainEvent.shmAttempt ∉
      (mainRun { validConfig with do_registers := 65537 } allOkEnv []).events := by
  have h : 65536 <
      ({ validConfig with do_registers := 65537 } : Config).do_registers ∨
      65536 < ({ validConfig with do_registers := 65537 } : Config).di_registers ∨
      65536 < ({ validConfig with do_registers := 65537 } : Config).ao_registers ∨
      65536 < ({ validConfig with do_registers := 65537 } : Config).ai_registers :=
    Or.inl (by norm_num)
  exact c8_oversized_bank_rejected_before_allocation
    { validConfig with do_registers := 65537 } allOkEnv [] h

/-- C5: for `0 ≤ x < 2^32` (the domain on which the `uint32` cast is
defined), `double_to_timeout_t` takes the integer part as whole seconds and
the fractional part times 1,000,000 truncated (floored, not rounded) as
microseconds, and the reverse conversion `sec + usec / 1,000,000` recovers
`x` from below with error strictly less than one microsecond. -/
theorem c5_timeout_adapter_roundtrip (x : ℚ) (h0 : 0 ≤ x)
    (_h32 : x < 2 ^ 32) :
    ((double_to_timeout_t x).1 : ℚ) = (⌊x⌋ : ℚ) ∧
    ((double_to_timeout_t x).2 : ℚ) = (⌊(x - (⌊x⌋ : ℚ)) * 1000000⌋ : ℚ) ∧
    timeout_t_to_double (double_to_timeout_t x).1 (double_to_timeout_t x).2
      ≤ x ∧
    x - timeout_t_to_double (double_to_timeout_t x).1
          (double_to_timeout_t x).2
      < 1 / 1000000 := by
  have hsf : 0 ≤ ⌊x⌋ := Int.floor_nonneg.mpr h0
  have hsecQ : (((⌊x⌋).toNat : Nat) : ℚ) = (⌊x⌋ : ℚ) := by
    exact_mod_cast congrArg (fun z : Int => (z : ℚ)) (Int.toNat_of_nonneg hsf)
  have hfr0 : (0 : ℚ) ≤ x - (⌊x⌋ : ℚ) := by
    have := Int.floor_le x
    linarith
  have huf : 0 ≤ ⌊(x - (⌊x⌋ : ℚ)) * 1000000⌋ := by
    apply Int.floor_nonneg.mpr
    positivity
  have husec :
      ((((⌊(x - (⌊x⌋ : ℚ)) * 1000000⌋).toNat : Nat)) : ℚ) =
        ((⌊(x - (⌊x⌋ : ℚ)) * 1000000⌋ : Int) : ℚ) := by
    exact_mod_cast congrArg (fun z : Int => (z : ℚ)) (Int.toNat_of_nonneg huf)
  have hdef1 : ((double_to_timeout_t x).1 : ℚ) = (⌊x⌋ : ℚ) := by
    unfold double_to_timeout_t
    exact hsecQ
  have hdef2 :
      ((double_to_timeout_t x).2 : ℚ) =
        ((⌊(x - (⌊x⌋ : ℚ)) * 1000000⌋ : Int) : ℚ) := by
    unfold double_to_timeout_t
    simp only
    rw [hsecQ, (by norm_num : (1000 * 1000 : ℚ) = 1000000)]
    exact husec
  have hle : ((⌊(x - (⌊x⌋ : ℚ)) * 1000000⌋ : Int) : ℚ) ≤
      (x - (⌊x⌋ : ℚ)) * 1000000 := Int.floor_le _
  have hgt : (x - (⌊x⌋ : ℚ)) * 1000000 <
      ((⌊(x - (⌊x⌋ : ℚ)) * 1000000⌋ : Int) : ℚ) + 1 :=
    Int.lt_floor_add_one _
  refine ⟨hdef1, by rw [hdef2], ?_, ?_⟩
  · unfold timeout_t_to_double
    rw [hdef1, hdef2]
    have hd : ((⌊(x - (⌊x⌋ : ℚ)) * 1000000⌋ : Int) : ℚ) / (1000 * 1000) ≤
        x - (⌊x⌋ : ℚ) := by
      rw [div_le_iff₀ (by norm_num : (0 : ℚ) < 1000 * 1000)]
      linarith
    linarith
  · unfold timeout_t_to_double
    rw [hdef1, hdef2]
    have hd : x - (⌊x⌋ : ℚ) <
        (((⌊(x - (⌊x⌋ : ℚ)) * 1000000⌋ : Int) : ℚ) + 1) / (1000 * 1000) := by
      rw [lt_div_iff₀ (by norm_num : (0 : ℚ) < 1000 * 1000)]
      linarith
    linarith

/-- C5 witness: the round-trip bound at the concrete timeout 3/2 s. -/
theorem c5_timeout_adapter_roundtrip_witness :
    timeout_t_to_double (double_to_timeout_t (3 / 2 : ℚ)).1
        (double_to_timeout_t (3 / 2 : ℚ)).2 ≤ (3 / 2 : ℚ) ∧
    (3 / 2 : ℚ) - timeout_t_to_double (double_to_timeout_t (3 / 2 : ℚ)).1
        (double_to_timeout_t (3 / 2 : ℚ)).2 < 1 / 1000000 :=
  ⟨(c5_timeout_adapter_roundtrip (3 / 2) (by norm_num) (by norm_num)).2.2.1,
   (c5_timeout_adapter_roundtrip (3 / 2) (by norm_num) (by norm_num)).2.2.2⟩

end ModbusRtuClientShm
